import Mathlib

/-!
Verification development for the `io_tools` UDP layer.

The embedding covers:
* `src/udp/net.h` — endianness detection (`is_big_endian`) and the in-place
  byte-order conversion `to_network_order`;
* `src/udp/UdpConnection.cpp` — the `UdpConnection` class: constructor,
  `bind`, `connect`, `recv`, `send` and the private `_init_sockaddr` helper.

Machine memory is modelled as lists of byte values (`Nat`, each `< 256` in the
intended use).  The host platform is abstracted by `Arch`, which fixes the byte
layout that `is_big_endian` inspects.  Operating-system calls (`::bind`,
`::connect`, `::gethostbyname`, readiness polling, `::recvfrom`, `::write`) are
modelled by an environment record `Env` that fixes each call's outcome, and
every operation additionally returns the list of OS calls it performed, in
order, so that "no system call was attempted" is expressible as an empty trace.
The `AbortIf`/`AbortIfNot` macros (from the author's `abort` dependency) print
a diagnostic and return the given value when the condition fails/holds; they
are embedded as early returns.
-/

namespace net

/-- The host CPU architecture, reduced to the one bit the code cares about:
whether multi-byte scalars are stored most-significant byte first. -/
structure Arch where
  bigEndian : Bool
deriving DecidableEq, Repr

/-- The in-memory bytes of `const int number = 0x1` (a 4-byte `int`) on the
given architecture: `[1,0,0,0]` little-endian, `[0,0,0,1]` big-endian. -/
def intOneBytes (arch : Arch) : List Nat :=
  if arch.bigEndian then [0, 0, 0, 1] else [1, 0, 0, 0]

/-- `net::is_big_endian` from `net.h`: reads the first byte of the in-memory
representation of the `int` constant `0x1` and returns `!(ptr[0])`. -/
def is_big_endian (arch : Arch) : Bool :=
  (intOneBytes arch).headD 0 == 0

/-- The body of the `swap` lambda in `net::to_network_order`: an XOR-swap
performed on its two parameters.  In the C++ source the lambda is
`[] (char a, char b) { a ^= b; b ^= a; a ^= b; }` — the parameters are taken
BY VALUE, so the computed pair is what the lambda's local variables hold when
it returns. -/
def xorSwapLocal (a b : Nat) : Nat × Nat :=
  let a := a ^^^ b
  let b := b ^^^ a
  let a := a ^^^ b
  (a, b)

/-- One iteration `swap(cp[i], cp[N-i-1])` of the loop in
`net::to_network_order`.  Because the lambda receives `char a, char b` by
value, the XOR-swap acts on copies and its result is discarded: the byte
array is returned unchanged. -/
def swapCall (bs : List Nat) (i j : Nat) : List Nat :=
  let _ := xorSwapLocal (bs.getD i 0) (bs.getD j 0)
  bs

/-- `net::to_network_order` from `net.h`, acting on the byte storage of the
scalar argument (`char* cp = &data`, read as the byte view of `data`;
`N = sizeof(T)`): if the host is not big-endian, run
`for (i = 0; i < N / 2; i++) swap(cp[i], cp[N-i-1]);`, otherwise do
nothing. -/
def to_network_order (arch : Arch) (bs : List Nat) : List Nat :=
  if !(is_big_endian arch) then
    (List.range (bs.length / 2)).foldl
      (fun acc i => swapCall acc i (bs.length - i - 1)) bs
  else bs

/-- The little-endian in-memory byte layout of a 16-bit value. -/
def bytesOfUInt16 (arch : Arch) (v : Nat) : List Nat :=
  if arch.bigEndian then [v / 256 % 256, v % 256] else [v % 256, v / 256 % 256]

/-- Read a 16-bit value back from its in-memory byte layout. -/
def valueOfBytes16 (arch : Arch) (bs : List Nat) : Nat :=
  if arch.bigEndian then (bs.getD 0 0) * 256 + bs.getD 1 0
  else (bs.getD 1 0) * 256 + bs.getD 0 0

/-- A little-endian host (e.g. x86). -/
def littleEndianHost : Arch := ⟨false⟩

/-- A big-endian host. -/
def bigEndianHost : Arch := ⟨true⟩

theorem is_big_endian_eq (arch : Arch) : is_big_endian arch = arch.bigEndian := by
  cases arch with
  | mk b => cases b <;> rfl

/-- The lambda's body is a correct XOR-swap of its local variables: had the
parameters been taken by reference, the bytes would have been exchanged. -/
theorem xorSwapLocal_swaps (a b : Nat) : xorSwapLocal a b = (b, a) := by
  show ((a ^^^ b) ^^^ (b ^^^ (a ^^^ b)), b ^^^ (a ^^^ b)) = (b, a)
  have h1 : b ^^^ (a ^^^ b) = a := by
    rw [Nat.xor_comm a b, ← Nat.xor_assoc, Nat.xor_self, Nat.zero_xor]
  rw [h1, Nat.xor_comm a b, Nat.xor_assoc, Nat.xor_self, Nat.xor_zero]

theorem swapCall_eq (bs : List Nat) (i j : Nat) : swapCall bs i j = bs := rfl

/-- Each loop iteration discards the swapped copies, so the whole function
returns its input bytes unchanged on every architecture. -/
theorem to_network_order_eq_id (arch : Arch) (bs : List Nat) :
    to_network_order arch bs = bs := by
  unfold to_network_order
  by_cases h : is_big_endian arch
  · simp [h]
  · simp only [h]
    generalize List.range (bs.length / 2) = l
    induction l generalizing bs with
    | nil => simp
    | cons x xs ih => simp only [List.foldl_cons, swapCall_eq]; exact ih bs

/-! ## UdpConnection (`src/udp/UdpConnection.{h,cpp}`) -/

/-- `AF_INET` (IPv4 address family). -/
def AF_INET : Nat := 2

/-- `INADDR_ANY` — the wildcard / any-interface IPv4 address. -/
def INADDR_ANY : Nat := 0

/-- Exchange the two bytes of a 16-bit value. -/
def swapBytes16 (x : Nat) : Nat := (x % 256) * 256 + (x / 256 % 256)

/-- Reverse the four bytes of a 32-bit value. -/
def swapBytes32 (x : Nat) : Nat :=
  (x % 256) * 16777216 + (x / 256 % 256) * 65536 +
    (x / 65536 % 256) * 256 + x / 16777216 % 256

/-- `::htons` — host to network (big-endian) order for 16-bit values. -/
def htons (arch : Arch) (x : Nat) : Nat :=
  if arch.bigEndian then x % 65536 else swapBytes16 (x % 65536)

/-- `::htonl` — host to network (big-endian) order for 32-bit values. -/
def htonl (arch : Arch) (x : Nat) : Nat :=
  if arch.bigEndian then x % 4294967296 else swapBytes32 (x % 4294967296)

/-- A `struct sockaddr_in`, reduced to the fields the code writes:
`sin_family`, `sin_port`, `sin_addr.s_addr` (each held in the byte order the
code stored them in). -/
structure sockaddr_in where
  sin_family : Nat
  sin_port : Nat
  sin_addr : Nat
deriving DecidableEq, Repr

/-- The operating-system calls a `UdpConnection` operation can perform, in
the order it performs them.  `resolve` is `::gethostbyname`; `os_bind` and
`os_connect` are `::bind`/`::connect` with the address passed to them;
`can_read`/`can_write` are the readiness waits on the descriptor with the
given timeout; `recvfrom` and `write` are the I/O calls proper. -/
inductive Event where
  | resolve (name : String)
  | os_bind (addr : sockaddr_in)
  | os_connect (addr : sockaddr_in)
  | can_read (timeout : Int)
  | can_write (timeout : Int)
  | recvfrom
  | write
deriving DecidableEq, Repr

/-- Outcomes of the OS calls an operation may make: `resolver` is the
`::gethostbyname` table (`none` = unknown host, `some a` = the resolved
`s_addr` bytes, already in network order as `h_addr_list[0]` is);
`bind_ok`/`connect_ok` tell whether `::bind`/`::connect` return 0;
`can_read`/`can_write` are the poll results; `recv_ret`/`write_ret` are the
return values of `::recvfrom`/`::write`. -/
structure Env where
  resolver : String → Option Nat
  bind_ok : Bool
  connect_ok : Bool
  can_read : Bool
  can_write : Bool
  recv_ret : Int
  write_ret : Int

/-- The state of a `UdpConnection` object: `_is_init` records whether
`::socket` succeeded in the constructor, `_is_connected` whether a `connect`
call has completed successfully, and `_remote_addr` is the remote-node
address member (uninitialized garbage until something writes it). -/
structure UdpConnection where
  _is_init : Bool
  _is_connected : Bool
  _remote_addr : sockaddr_in
deriving DecidableEq, Repr

/-- The `UdpConnection` constructor: `_fd` is set from `::socket(...)`,
`_is_connected` to `false`, `_is_init` to whether the descriptor is valid.
`_remote_addr` is left uninitialized; `garbage` stands for its indeterminate
initial contents. -/
def mkUdpConnection (socket_ok : Bool) (garbage : sockaddr_in) : UdpConnection :=
  { _is_init := socket_ok, _is_connected := false, _remote_addr := garbage }

/-- `UdpConnection::_init_sockaddr`: zero the struct (`memset`), set
`sin_family = AF_INET` and `sin_port = htons(port)`, then either use
`htonl(INADDR_ANY)` for an empty name or resolve the name with
`::gethostbyname`, whose failure makes the function return `false` — with the
struct already partially written.  Returns (success, struct as written, OS
calls made). -/
def init_sockaddr (arch : Arch) (resolver : String → Option Nat)
    (port : Nat) (name : String) : Bool × sockaddr_in × List Event :=
  let addr1 : sockaddr_in :=
    { sin_family := AF_INET, sin_port := htons arch port, sin_addr := 0 }
  if name = "" then
    (true, { addr1 with sin_addr := htonl arch INADDR_ANY }, [])
  else
    match resolver name with
    | none => (false, addr1, [Event.resolve name])
    | some a => (true, { addr1 with sin_addr := a }, [Event.resolve name])

/-- `UdpConnection::bind(port, name)`: abort with `false` unless `_is_init`;
build the local address with `_init_sockaddr` (abort on failure); call
`::bind` and abort with `false` if it fails; otherwise return `true`.  The
object's fields are never modified. -/
def UdpConnection.bind (c : UdpConnection) (arch : Arch) (env : Env)
    (port : Nat) (name : String) : Bool × UdpConnection × List Event :=
  if !c._is_init then (false, c, [])
  else
    match init_sockaddr arch env.resolver port name with
    | (false, _, evs) => (false, c, evs)
    | (true, addr, evs) =>
      if env.bind_ok then (true, c, evs ++ [Event.os_bind addr])
      else (false, c, evs ++ [Event.os_bind addr])

/-- `UdpConnection::connect(port, host)`: abort with `false` unless
`_is_init`; run `_init_sockaddr(port, host, _remote_addr)` — which writes
into the member `_remote_addr` before its success is checked — aborting on
failure; call `::connect` and abort with `false` if it fails; on success set
`_is_connected = true`. -/
def UdpConnection.connect (c : UdpConnection) (arch : Arch) (env : Env)
    (port : Nat) (host : String) : Bool × UdpConnection × List Event :=
  if !c._is_init then (false, c, [])
  else
    match init_sockaddr arch env.resolver port host with
    | (false, written, evs) => (false, { c with _remote_addr := written }, evs)
    | (true, addr, evs) =>
      let c1 := { c with _remote_addr := addr }
      if env.connect_ok then
        (true, { c1 with _is_connected := true }, evs ++ [Event.os_connect addr])
      else (false, c1, evs ++ [Event.os_connect addr])

/-- `UdpConnection::recv(buf, size, timeout) const` (the definition in
`UdpConnection.cpp`): abort with `-1` unless `_is_init`; return `0` if the
readiness wait `_fd.can_read(timeout)` expires; otherwise call `::recvfrom`
(into `buf`, collecting the sender address locally) and abort with `-1` if it
returned a negative count, else return the count.  The object is `const`:
no field changes. -/
def UdpConnection.recv (c : UdpConnection) (env : Env)
    (_size : Nat) (timeout : Int) : Int × List Event :=
  if !c._is_init then (-1, [])
  else if !env.can_read then (0, [Event.can_read timeout])
  else if env.recv_ret < 0 then (-1, [Event.can_read timeout, Event.recvfrom])
  else (env.recv_ret, [Event.can_read timeout, Event.recvfrom])

/-- `UdpConnection::send(buf, size, timeout) const` (the definition in
`UdpConnection.cpp`): abort with `-1` unless `_is_init`; abort with `-1`
unless `_is_connected` ("send() is only allowed on connected sockets.");
return `0` if the writability wait `_fd.can_write(timeout)` expires;
otherwise `::write` and abort with `-1` on a negative return, else return the
byte count. -/
def UdpConnection.send (c : UdpConnection) (env : Env)
    (_size : Nat) (timeout : Int) : Int × List Event :=
  if !c._is_init then (-1, [])
  else if !c._is_connected then (-1, [])
  else if !env.can_write then (0, [Event.can_write timeout])
  else if env.write_ret < 0 then (-1, [Event.can_write timeout, Event.write])
  else (env.write_ret, [Event.can_write timeout, Event.write])

/-! ### Operation sequences -/

/-- One public operation on a `UdpConnection`, together with the outcomes the
OS would supply for the calls it makes. -/
inductive Op where
  | bind (arch : Arch) (env : Env) (port : Nat) (name : String)
  | connect (arch : Arch) (env : Env) (port : Nat) (host : String)
  | recv (env : Env) (size : Nat) (timeout : Int)
  | send (env : Env) (size : Nat) (timeout : Int)

/-- The connection state after performing one operation. -/
def step (c : UdpConnection) : Op → UdpConnection
  | Op.bind arch env port name => (c.bind arch env port name).2.1
  | Op.connect arch env port host => (c.connect arch env port host).2.1
  | Op.recv _ _ _ => c
  | Op.send _ _ _ => c

/-- The connection state after performing a sequence of operations. -/
def run (c : UdpConnection) : List Op → UdpConnection
  | [] => c
  | op :: rest => run (step c op) rest

/-- Whether `op`, performed on state `c`, is a `connect` call that returns
`true`. -/
def isSuccessfulConnect (c : UdpConnection) : Op → Bool
  | Op.connect arch env port host => (c.connect arch env port host).1
  | _ => false

/-- How many operations of the sequence are successful `connect` calls. -/
def successfulConnectCount (c : UdpConnection) : List Op → Nat
  | [] => 0
  | op :: rest =>
    (if isSuccessfulConnect c op then 1 else 0) +
      successfulConnectCount (step c op) rest

/-- How many steps of the sequence move `_is_connected` from `false` to
`true` (the `Unconnected → Connected` transition). -/
def connectTransitionCount (c : UdpConnection) : List Op → Nat
  | [] => 0
  | op :: rest =>
    (if c._is_connected = false ∧ (step c op)._is_connected = true then 1 else 0) +
      connectTransitionCount (step c op) rest

/-- Whether an operation is a `connect` call. -/
def Op.isConnect : Op → Bool
  | Op.connect _ _ _ _ => true
  | _ => false

/-! ### Buffer-level receive -/

/-- A `DataBuffer` as the spec describes it: a writable byte range with a
declared capacity. -/
structure DataBuffer where
  capacity : Nat
  data : List Nat
deriving DecidableEq, Repr

/-- OS outcomes for one buffer-level receive: the readiness-poll result,
whether the datagram read itself fails, and — when it succeeds — the pending
datagram's sender address and payload. -/
structure RecvEnv where
  can_read : Bool
  recv_fail : Bool
  datagram_sender : sockaddr_in
  datagram_payload : List Nat

/-- Modelled from the spec: `bool UdpConnection::recv(DataBuffer& buf,
int timeout, bool conn)` is declared in `UdpConnection.h` (together with its
helper `_handle_input`) but has no definition in the available sources; only
the raw `recv(char*, int, int)` overload is implemented.  Following §4.2 of
the spec: wait up to `timeout` for readability (expiry gives a zero-bytes
result distinct from an error); if readable, perform a single datagram read
into the buffer's storage, bounded by the buffer's declared capacity; when
`conn` (requireConnected) is set, discard data not originating from the
Remote Address — the spec leaves drop-and-rewait vs zero-bytes open, and this
model surfaces a non-matching sender as zero bytes (under either policy the
data is never delivered); return the byte count, or an error if the read
itself fails. -/
def UdpConnection.recv_buffer (c : UdpConnection) (env : RecvEnv)
    (buf : DataBuffer) (timeout : Int) (conn : Bool) :
    Int × DataBuffer × List Event :=
  if !c._is_init then (-1, buf, [])
  else if !env.can_read then (0, buf, [Event.can_read timeout])
  else if env.recv_fail then (-1, buf, [Event.can_read timeout, Event.recvfrom])
  else if conn ∧ env.datagram_sender ≠ c._remote_addr then
    (0, buf, [Event.can_read timeout, Event.recvfrom])
  else
    let payload := env.datagram_payload.take buf.capacity
    ((payload.length : Int), { buf with data := payload },
      [Event.can_read timeout, Event.recvfrom])

/-! ### Helper lemmas -/

theorem bind_state_eq (c : UdpConnection) (arch : Arch) (env : Env)
    (port : Nat) (name : String) : (c.bind arch env port name).2.1 = c := by
  unfold UdpConnection.bind
  by_cases h : c._is_init
  · rcases hi : init_sockaddr arch env.resolver port name with ⟨b, addr, evs⟩
    cases b <;> by_cases hb : env.bind_ok <;> simp [h, hi, hb]
  · simp [h]

theorem connect_state_connected (c : UdpConnection) (arch : Arch) (env : Env)
    (port : Nat) (host : String) :
    (c.connect arch env port host).2.1._is_connected =
      (c._is_connected || (c.connect arch env port host).1) := by
  unfold UdpConnection.connect
  by_cases h : c._is_init
  · rcases hi : init_sockaddr arch env.resolver port host with ⟨b, addr, evs⟩
    cases b <;> by_cases hc : env.connect_ok <;> simp [h, hi, hc]
  · simp [h]

theorem connect_state_is_init (c : UdpConnection) (arch : Arch) (env : Env)
    (port : Nat) (host : String) :
    (c.connect arch env port host).2.1._is_init = c._is_init := by
  unfold UdpConnection.connect
  by_cases h : c._is_init
  · rcases hi : init_sockaddr arch env.resolver port host with ⟨b, addr, evs⟩
    cases b <;> by_cases hc : env.connect_ok <;> simp [h, hi, hc]
  · simp [h]

theorem step_is_connected (c : UdpConnection) (op : Op) :
    (step c op)._is_connected = (c._is_connected || isSuccessfulConnect c op) := by
  cases op with
  | bind arch env port name =>
      simp [step, isSuccessfulConnect, bind_state_eq]
  | connect arch env port host =>
      simp [step, isSuccessfulConnect, connect_state_connected]
  | recv env size timeout => simp [step, isSuccessfulConnect]
  | send env size timeout => simp [step, isSuccessfulConnect]

theorem step_is_init (c : UdpConnection) (op : Op) :
    (step c op)._is_init = c._is_init := by
  cases op with
  | bind arch env port name => simp [step, bind_state_eq]
  | connect arch env port host => simp [step, connect_state_is_init]
  | recv env size timeout => rfl
  | send env size timeout => rfl

theorem run_is_init (c : UdpConnection) (ops : List Op) :
    (run c ops)._is_init = c._is_init := by
  induction ops generalizing c with
  | nil => rfl
  | cons op rest ih => rw [run, ih, step_is_init]

theorem run_connected_of_no_connect (c : UdpConnection) (ops : List Op)
    (h : successfulConnectCount c ops = 0) :
    (run c ops)._is_connected = c._is_connected := by
  induction ops generalizing c with
  | nil => rfl
  | cons op rest ih =>
      rw [successfulConnectCount] at h
      have h1 : isSuccessfulConnect c op = false := by
        by_cases hs : isSuccessfulConnect c op
        · simp [hs] at h
        · simpa using hs
      have h2 : successfulConnectCount (step c op) rest = 0 := by
        rw [h1] at h
        simpa using h
      rw [run, ih (step c op) h2, step_is_connected, h1, Bool.or_false]

theorem transition_count_zero_of_connected (c : UdpConnection) (ops : List Op)
    (h : c._is_connected = true) : connectTransitionCount c ops = 0 := by
  induction ops generalizing c with
  | nil => rfl
  | cons op rest ih =>
      have hstep : (step c op)._is_connected = true := by
        rw [step_is_connected, h, Bool.true_or]
      rw [connectTransitionCount, ih (step c op) hstep]
      simp [h]

theorem transition_count_le_one (c : UdpConnection) (ops : List Op) :
    connectTransitionCount c ops ≤ 1 := by
  induction ops generalizing c with
  | nil => exact Nat.zero_le 1
  | cons op rest ih =>
      rw [connectTransitionCount]
      by_cases h : c._is_connected = false ∧ (step c op)._is_connected = true
      · rw [if_pos h, transition_count_zero_of_connected (step c op) rest h.2]
      · rw [if_neg h, Nat.zero_add]
        exact ih (step c op)

/-! ### Concrete fixtures -/

/-- A zeroed `sockaddr_in`, standing in for whatever garbage the
uninitialized member happens to hold. -/
def sockaddrZero : sockaddr_in := ⟨0, 0, 0⟩

/-- A connection whose `::socket` call succeeded. -/
def connW : UdpConnection := mkUdpConnection true sockaddrZero

/-- An environment in which every OS call succeeds; the resolver yields the
network-order bytes of `127.0.0.1`. -/
def envAllOk : Env :=
  { resolver := fun _ => some 16777343, bind_ok := true, connect_ok := true,
    can_read := true, can_write := true, recv_ret := 3, write_ret := 3 }

/-- Like `envAllOk` but name resolution fails (unknown host). -/
def envResolveFail : Env := { envAllOk with resolver := fun _ => none }

/-- Like `envAllOk` but the resolver yields a different remote address. -/
def envResolveB : Env := { envAllOk with resolver := fun _ => some 42 }

/-- A sequence with a bind, a `connect` whose resolution fails, and a recv:
no successful connect occurs in it. -/
def opsNoConnect : List Op :=
  [Op.bind littleEndianHost envAllOk 8080 "",
   Op.connect littleEndianHost envResolveFail 9 "badhost",
   Op.recv envAllOk 4 0]

/-! ### Claims -/

/-- C1: the claim says `to_network_order` on the 2-byte value `0x0102` yields
`0x0201` on a little-endian host.  The code violates this: the XOR-swap
lambda receives its `char` parameters by value, so the loop never writes the
swapped bytes back and the value comes back as `0x0102` unchanged.  This
theorem evaluates the code at the failing input. -/
theorem C1_to_network_order_little_endian_noop :
    valueOfBytes16 littleEndianHost
        (to_network_order littleEndianHost (bytesOfUInt16 littleEndianHost 0x0102)) =
      0x0102
  ∧ to_network_order littleEndianHost (bytesOfUInt16 littleEndianHost 0x0102) ≠
      bytesOfUInt16 littleEndianHost 0x0201
  ∧ (0x0102 : Nat) ≠ 0x0201 := by
  refine ⟨rfl, ?_, by decide⟩
  decide

/-- C2: for every scalar (byte list) and on every platform,
`to_network_order` leaves the value's bytes unchanged, because the swap
lambda takes its two `char` parameters by value and so mutates only local
copies. -/
theorem C2_to_network_order_leaves_bytes_unchanged (arch : Arch) (bs : List Nat) :
    to_network_order arch bs = bs :=
  to_network_order_eq_id arch bs

/-- C3: an initialized connection on which no successful `connect` has
occurred fails `send` with the `-1` (InvalidState) result, and the operation
performs no OS call at all — in particular neither the writability wait nor
the `::write`. -/
theorem C3_send_unconnected_invalid_state (garbage : sockaddr_in)
    (ops : List Op) (env : Env) (size : Nat) (timeout : Int)
    (h : successfulConnectCount (mkUdpConnection true garbage) ops = 0) :
    ((run (mkUdpConnection true garbage) ops).send env size timeout).1 = -1
  ∧ ((run (mkUdpConnection true garbage) ops).send env size timeout).2 = [] := by
  have hinit : (run (mkUdpConnection true garbage) ops)._is_init = true := by
    rw [run_is_init]; rfl
  have hconn : (run (mkUdpConnection true garbage) ops)._is_connected = false := by
    rw [run_connected_of_no_connect _ _ h]; rfl
  unfold UdpConnection.send
  rw [hinit, hconn]
  exact ⟨rfl, rfl⟩

/-- Witness for C3 at a concrete run (a bind, a failed connect, a recv). -/
theorem C3_witness :
    successfulConnectCount (mkUdpConnection true sockaddrZero) opsNoConnect = 0
  ∧ (((run (mkUdpConnection true sockaddrZero) opsNoConnect).send envAllOk 3 5).1 = -1
  ∧ ((run (mkUdpConnection true sockaddrZero) opsNoConnect).send envAllOk 3 5).2 = []) :=
  ⟨by decide,
   C3_send_unconnected_invalid_state sockaddrZero opsNoConnect envAllOk 3 5 (by decide)⟩

/-- C4: `_is_connected` becomes `true` exactly when it already was or the
step is a successful `connect` (so the `Unconnected → Connected` transition
happens only via a successful connect and is never undone), and along any
operation sequence that transition happens at most once. -/
theorem C4_connected_transition_once (c : UdpConnection) (op : Op) (ops : List Op) :
    (step c op)._is_connected = (c._is_connected || isSuccessfulConnect c op)
  ∧ connectTransitionCount c ops ≤ 1 :=
  ⟨step_is_connected c op, transition_count_le_one c ops⟩

/-- C5: on an initialized connection, an expired readiness wait yields the
zero-bytes result, distinct from the `-1` error; `-1` arises only when the
`::recvfrom` call itself fails; otherwise `recv` returns the byte count the
read produced. -/
theorem C5_recv_timeout_not_error (c : UdpConnection) (env : Env)
    (size : Nat) (timeout : Int) (h : c._is_init = true) :
    (env.can_read = false →
      (c.recv env size timeout).1 = 0 ∧ (c.recv env size timeout).1 ≠ -1)
  ∧ ((c.recv env size timeout).1 = -1 → env.can_read = true ∧ env.recv_ret < 0)
  ∧ (env.can_read = true → 0 ≤ env.recv_ret →
      (c.recv env size timeout).1 = env.recv_ret) := by
  unfold UdpConnection.recv
  rw [h]
  by_cases hr : env.can_read
  · by_cases hf : env.recv_ret < 0
    · simp [hr, hf]
    · simp [hr, hf]
      omega
  · simp [Bool.of_not_eq_true hr]

/-- Witness for C5 on a concrete initialized connection and environment. -/
theorem C5_witness :
    (envAllOk.can_read = false →
      (connW.recv envAllOk 4 0).1 = 0 ∧ (connW.recv envAllOk 4 0).1 ≠ -1)
  ∧ ((connW.recv envAllOk 4 0).1 = -1 →
      envAllOk.can_read = true ∧ envAllOk.recv_ret < 0)
  ∧ (envAllOk.can_read = true → 0 ≤ envAllOk.recv_ret →
      (connW.recv envAllOk 4 0).1 = envAllOk.recv_ret) :=
  C5_recv_timeout_not_error connW envAllOk 4 0 rfl

/-- C6: on a connection whose descriptor acquisition failed, `bind`,
`connect`, `recv` and `send` all fail immediately with the initialization
error result (`false` / `-1`), leave the state untouched, and perform no OS
call (empty trace: no resolution, no readiness wait, no I/O). -/
theorem C6_uninitialized_all_ops_fail (garbage : sockaddr_in) (arch : Arch)
    (env : Env) (port size : Nat) (name host : String) (timeout : Int) :
    (mkUdpConnection false garbage).bind arch env port name =
      (false, mkUdpConnection false garbage, [])
  ∧ (mkUdpConnection false garbage).connect arch env port host =
      (false, mkUdpConnection false garbage, [])
  ∧ (mkUdpConnection false garbage).recv env size timeout = (-1, [])
  ∧ (mkUdpConnection false garbage).send env size timeout = (-1, []) := by
  exact ⟨rfl, rfl, rfl, rfl⟩

/-- C7 counterexample: after a first successful `connect`, a second `connect`
call succeeds and replaces the stored remote address — `_remote_addr` is not
immutable after the first successful connect. -/
theorem C7_counterexample :
    ((mkUdpConnection true sockaddrZero).connect littleEndianHost envAllOk 1 "hostA").1 = true
  ∧ (((mkUdpConnection true sockaddrZero).connect littleEndianHost envAllOk 1 "hostA").2.1.connect
        littleEndianHost envResolveB 2 "hostB").1 = true
  ∧ (((mkUdpConnection true sockaddrZero).connect littleEndianHost envAllOk 1 "hostA").2.1.connect
        littleEndianHost envResolveB 2 "hostB").2.1._remote_addr ≠
      ((mkUdpConnection true sockaddrZero).connect littleEndianHost envAllOk 1 "hostA").2.1._remote_addr := by
  refine ⟨rfl, rfl, ?_⟩
  decide

/-- C7 amended: the remote address is changed only by `connect` calls — every
non-`connect` operation (`bind`, `recv`, `send`) leaves `_remote_addr`
exactly as it was. -/
theorem C7_remote_addr_frame (c : UdpConnection) (op : Op)
    (h : op.isConnect = false) :
    (step c op)._remote_addr = c._remote_addr := by
  cases op with
  | bind arch env port name => simp [step, bind_state_eq]
  | connect arch env port host => simp [Op.isConnect] at h
  | recv env size timeout => rfl
  | send env size timeout => rfl

/-- Witness for the amended C7 at a concrete non-connect operation. -/
theorem C7_remote_addr_frame_witness :
    (Op.recv envAllOk 1 0).isConnect = false
  ∧ (step connW (Op.recv envAllOk 1 0))._remote_addr = connW._remote_addr :=
  ⟨rfl, C7_remote_addr_frame connW (Op.recv envAllOk 1 0) rfl⟩

/-- C8: `bind` succeeds exactly when the descriptor is valid, resolution
succeeds (an empty interface name never needs resolution), and the OS
`::bind` call succeeds; and with an empty name the address handed to
`::bind` is the wildcard `INADDR_ANY` one (family `AF_INET`, the given port
in network order). -/
theorem C8_bind_characterization (c : UdpConnection) (arch : Arch) (env : Env)
    (port : Nat) (name : String) :
    ((c.bind arch env port name).1 = true ↔
      c._is_init = true ∧ (name = "" ∨ (env.resolver name).isSome = true)
        ∧ env.bind_ok = true)
  ∧ (c._is_init = true →
      (c.bind arch env port "").2.2 =
        [Event.os_bind { sin_family := AF_INET, sin_port := htons arch port,
                         sin_addr := htonl arch INADDR_ANY }]) := by
  constructor
  · unfold UdpConnection.bind init_sockaddr
    by_cases h : c._is_init
    · by_cases hn : name = ""
      · by_cases hb : env.bind_ok <;> simp [h, hn, hb]
      · rcases hr : env.resolver name with _ | a
        · simp [h, hn, hr]
        · by_cases hb : env.bind_ok <;> simp [h, hn, hr, hb]
    · simp [h]
  · intro h
    unfold UdpConnection.bind init_sockaddr
    by_cases hb : env.bind_ok <;> simp [h, hb]

/-- Witness for C8 on a concrete connection, environment, port and name. -/
theorem C8_witness :
    ((connW.bind littleEndianHost envAllOk 8080 "").1 = true ↔
      connW._is_init = true ∧ ("" = "" ∨ (envAllOk.resolver "").isSome = true)
        ∧ envAllOk.bind_ok = true)
  ∧ (connW._is_init = true →
      (connW.bind littleEndianHost envAllOk 8080 "").2.2 =
        [Event.os_bind { sin_family := AF_INET,
                         sin_port := htons littleEndianHost 8080,
                         sin_addr := htonl littleEndianHost INADDR_ANY }]) :=
  C8_bind_characterization connW littleEndianHost envAllOk 8080 ""

/-- C9: applying `to_network_order` twice returns the original value, for
every scalar size and platform. -/
theorem C9_to_network_order_involution (arch : Arch) (bs : List Nat) :
    to_network_order arch (to_network_order arch bs) = bs := by
  rw [to_network_order_eq_id, to_network_order_eq_id]

/-- C10 (spec-modelled buffer-level receive): with `requireConnected` set on
a connected, initialized socket whose wait reports data, the operation
performs exactly one datagram read; a datagram from a sender other than the
stored remote address is never delivered (zero-bytes result, buffer
untouched); a matching sender's payload is delivered truncated to the
buffer's declared capacity. -/
theorem C10_recv_conn_filters_sender (c : UdpConnection) (env : RecvEnv)
    (buf : DataBuffer) (timeout : Int)
    (_hc : c._is_connected = true) (hi : c._is_init = true)
    (hr : env.can_read = true) (hf : env.recv_fail = false) :
    (c.recv_buffer env buf timeout true).2.2.count Event.recvfrom = 1
  ∧ (env.datagram_sender ≠ c._remote_addr →
      (c.recv_buffer env buf timeout true).1 = 0
    ∧ (c.recv_buffer env buf timeout true).2.1 = buf)
  ∧ (env.datagram_sender = c._remote_addr →
      (c.recv_buffer env buf timeout true).2.1.data =
        env.datagram_payload.take buf.capacity
    ∧ (c.recv_buffer env buf timeout true).2.1.data.length ≤ buf.capacity) := by
  unfold UdpConnection.recv_buffer
  rw [hi, hr, hf]
  by_cases hs : env.datagram_sender = c._remote_addr
  · simp [hs, List.count_cons, List.length_take]
  · simp [hs, List.count_cons]

/-- Witness for C10: a connected connection receiving from a non-matching
sender. -/
theorem C10_witness :
    let c1 := ((mkUdpConnection true sockaddrZero).connect littleEndianHost
      envAllOk 1 "hostA").2.1
    let renv : RecvEnv :=
      { can_read := true, recv_fail := false, datagram_sender := sockaddrZero,
        datagram_payload := [65, 66, 67] }
    (c1.recv_buffer renv ⟨2, []⟩ 0 true).2.2.count Event.recvfrom = 1
  ∧ (renv.datagram_sender ≠ c1._remote_addr →
      (c1.recv_buffer renv ⟨2, []⟩ 0 true).1 = 0
    ∧ (c1.recv_buffer renv ⟨2, []⟩ 0 true).2.1 = ⟨2, []⟩)
  ∧ (renv.datagram_sender = c1._remote_addr →
      (c1.recv_buffer renv ⟨2, []⟩ 0 true).2.1.data =
        renv.datagram_payload.take (2 : Nat)
    ∧ (c1.recv_buffer renv ⟨2, []⟩ 0 true).2.1.data.length ≤ 2) :=
  C10_recv_conn_filters_sender _ _ ⟨2, []⟩ 0 rfl rfl rfl rfl

end net
